import Mathlib

/-!
Verification development for the sembako-price scraping API (`app.py`).

The repository is a single-file Flask service that scrapes five resources
(commodity prices, flight arrivals, cinema listings, events, Google trends),
caches each one in a per-resource JSON snapshot file, and serves the snapshot
while it is fresh.  Below, the pure computational core of each function is
embedded as executable Lean definitions: text normalizers, per-resource cache
validity checks, the row-extraction logic of each scraper, and the
orchestration logic of each route (serve-cache vs. refresh, best-effort
persistence).  Timestamps are modelled in whole seconds as integers; at that
granularity the Python float arithmetic used by the code
(`(now - mtime)/60/60 <= 24.00`, `delta < 6*24*60*60`,
`len(errors) > len(flights)*0.3`) agrees exactly with the integer
comparisons used here (for any realistic list length / clock value).
Characters are ASCII-modelled: Lean's `Char.isDigit` stands for the `\d`
class of `re.sub(r"[^\d]", "", s)` (Python additionally matches non-ASCII
decimal digits; none of the verified properties depend on those).
-/

/-- Model of Python `re.sub(r"[^\d]", "", s)` (`app.py` lines 105, 118):
keep only the decimal-digit characters of the string, in order. -/
def stripNonDigits (s : String) : List Char := s.data.filter Char.isDigit

/-- Model of Python `int` applied to a (possibly empty) string of decimal
digits, most significant first.  `int` on the empty string raises, but every
caller in `app.py` guards with a non-emptiness test first; on the empty list
this fold returns 0, which is only ever exposed through those guards. -/
def parseNat (l : List Char) : Nat := l.foldl (fun a c => 10 * a + (c.toNat - 48)) 0

/-- `clean_price` (`app.py` lines 103-106): strip every non-digit character
and parse the rest as a non-negative integer, or 0 if no digits remain. -/
def clean_price (s : String) : Nat :=
  let cleaned := stripNonDigits s
  if cleaned = [] then 0 else parseNat cleaned

/-- The characters Python's default `str.strip()` removes, restricted to
ASCII: space, tab, newline, carriage return, vertical tab, form feed. -/
def isPySpace (c : Char) : Bool :=
  c = ' ' || c = '\t' || c = '\n' || c = '\r' || c = '\x0b' || c = '\x0c'

/-- Model of Python `s.strip()`: drop leading and trailing whitespace. -/
def pyStrip (s : String) : String :=
  List.asString (((s.data.dropWhile isPySpace).reverse.dropWhile isPySpace).reverse)

/-- `clean_change` (`app.py` lines 109-124): empty or trimmed-to-`"-"` input
gives 0; otherwise strip non-digits, parse, and negate iff a `-` occurs
anywhere in the input (`"-" in change_str`). -/
def clean_change (s : String) : Int :=
  if s = "" ∨ pyStrip s = "-" then 0
  else
    let neg := s.data.contains '-'
    let cleaned := stripNonDigits s
    if cleaned = [] then 0
    else if neg then -(parseNat cleaned : Int) else (parseNat cleaned : Int)

/-- Restatement of the spec's wording for `clean_change` ("the integer formed
by the digits remaining after stripping all non-digit characters (0 if none
remain), negated iff a `-` occurs anywhere in the input"), to be compared
with the source-derived `clean_change`. -/
def clean_changeSpec (s : String) : Int :=
  if s = "" ∨ pyStrip s = "-" then 0
  else (if s.data.contains '-' then -1 else 1) * (parseNat (stripNonDigits s) : Int)

/-- Model of Python `str` on a non-negative integer: its decimal digits,
most significant first (`str(0) = "0"`). -/
def pyStr (n : Nat) : String :=
  if n = 0 then "0" else List.asString ((Nat.digits 10 n).reverse.map Nat.digitChar)

theorem digitChar_isDigit {d : Nat} (h : d < 10) : (Nat.digitChar d).isDigit = true := by
  interval_cases d <;> decide

theorem toNat_digitChar_sub {d : Nat} (h : d < 10) : (Nat.digitChar d).toNat - 48 = d := by
  interval_cases d <;> decide

theorem foldl_map_digitChar (l : List Nat) (h : ∀ d ∈ l, d < 10) (a : Nat) :
    List.foldl (fun a c => 10 * a + (c.toNat - 48)) a (l.map Nat.digitChar)
      = List.foldl (fun a d => 10 * a + d) a l := by
  induction l generalizing a with
  | nil => rfl
  | cons d t ih =>
      simp only [List.map_cons, List.foldl_cons]
      rw [toNat_digitChar_sub (h d (by simp))]
      exact ih (fun x hx => h x (by simp [hx])) _

theorem foldl_reverse_ofDigits (l : List Nat) :
    List.foldl (fun a d => 10 * a + d) 0 l.reverse = Nat.ofDigits 10 l := by
  rw [List.foldl_reverse]
  induction l with
  | nil => simp [Nat.ofDigits]
  | cons d t ih =>
      simp only [List.foldr_cons, ih, Nat.ofDigits_cons]
      omega

theorem parseNat_digits (n : Nat) :
    parseNat ((Nat.digits 10 n).reverse.map Nat.digitChar) = n := by
  have h10 : ∀ d ∈ (Nat.digits 10 n).reverse, d < 10 := by
    intro d hd
    exact Nat.digits_lt_base (by norm_num) (List.mem_reverse.mp hd)
  unfold parseNat
  rw [foldl_map_digitChar _ h10, foldl_reverse_ofDigits, Nat.ofDigits_digits]

theorem pyStr_data_digits (n : Nat) : ∀ c ∈ (pyStr n).data, c.isDigit = true := by
  intro c hc
  unfold pyStr at hc
  by_cases h : n = 0
  · simp [h] at hc
    simp [hc]
  · simp only [h, if_false, List.asString, List.mem_map] at hc
    obtain ⟨d, hd, rfl⟩ := hc
    exact digitChar_isDigit (Nat.digits_lt_base (by norm_num) (List.mem_reverse.mp hd))

theorem clean_price_pyStr (n : Nat) : clean_price (pyStr n) = n := by
  have hfilter : stripNonDigits (pyStr n) = (pyStr n).data := by
    unfold stripNonDigits
    exact List.filter_eq_self.mpr (pyStr_data_digits n)
  by_cases h : n = 0
  · subst h
    decide
  · have hdat : (pyStr n).data = (Nat.digits 10 n).reverse.map Nat.digitChar := by
      simp [pyStr, h, List.asString]
    have hne : (pyStr n).data ≠ [] := by
      rw [hdat]
      simp [Nat.digits_ne_nil_iff_ne_zero.mpr h]
    unfold clean_price
    rw [hfilter]
    simp only [hne, if_false]
    rw [hdat]
    exact parseNat_digits n

/-- C4: `clean_price` is total and deterministic (a Lean function); it strips
every non-digit and parses the remaining digits, returning 0 when none
remain (the guard collapses into the fold, first conjunct); it is idempotent
through Python `str` of its output; and the two concrete examples from the
spec hold. -/
theorem C4_clean_price_total_idempotent :
    (∀ s : String, clean_price s = parseNat (stripNonDigits s))
    ∧ (∀ s : String, clean_price (pyStr (clean_price s)) = clean_price s)
    ∧ clean_price "Rp 14.500" = 14500
    ∧ clean_price "" = 0 := by
  refine ⟨?_, ?_, by decide, by decide⟩
  · intro s
    unfold clean_price
    by_cases h : stripNonDigits s = [] <;> simp [h, parseNat]
  · intro s
    exact clean_price_pyStr (clean_price s)

/-- C5: `clean_change` agrees everywhere with the spec's description
(0 on empty or trimmed-`"-"` input, otherwise the stripped digits negated
iff a `-` occurs anywhere), and the four concrete examples hold. -/
theorem C5_clean_change_spec :
    (∀ s : String, clean_change s = clean_changeSpec s)
    ∧ clean_change "-" = 0
    ∧ clean_change "" = 0
    ∧ clean_change "-500" = -500
    ∧ clean_change "500" = 500 := by
  refine ⟨?_, by decide, by decide, by decide, by decide⟩
  intro s
  unfold clean_change clean_changeSpec
  by_cases h0 : s = "" ∨ pyStrip s = "-"
  · simp [h0]
  · simp only [h0, if_false]
    by_cases hc : stripNonDigits s = []
    · simp [hc, parseNat]
    · by_cases hneg : s.data.contains '-' <;> simp [hc, hneg]

/-- One extracted commodity-price record (`app.py` lines 232-240). -/
structure CommodityRecord where
  komoditas : String
  unit : String
  yesterday : Nat
  today : Nat
  change : Int
deriving DecidableEq

/-- `cells[i].get_text(strip=True)`: cells are modelled by their stripped
texts; out-of-range access never happens in the code (guarded by the length
test), so the default is never exposed. -/
def cellText (cells : List String) (i : Nat) : String := cells.getD i ""

/-- The record built from one table row with at least 5 cells
(`app.py` lines 224-240). -/
def mkCommodity (cells : List String) : CommodityRecord :=
  ⟨cellText cells 0, cellText cells 1,
   clean_price (cellText cells 2), clean_price (cellText cells 3),
   clean_change (cellText cells 4)⟩

/-- The row loop of `scrape_sembako_data` (`app.py` lines 220-242): a row is
processed only if it has at least 5 cells, and appended only if its
komoditas cell is non-empty. -/
def processRows : List (List String) → List CommodityRecord
  | [] => []
  | cells :: rest =>
    if 5 ≤ cells.length then
      if cellText cells 0 = "" then processRows rest
      else mkCommodity cells :: processRows rest
    else processRows rest

/-- Model of the `<thead>` of the price table: `thead.find("tr")` may fail
(`tr = none`); when it succeeds, `tr` carries the stripped texts of the
`<th>` cells of the first header row. -/
structure TheadModel where
  tr : Option (List String)
deriving DecidableEq

/-- Model of the `<table>`: `table.find("thead")` / `table.find("tbody")`
may each fail; a present tbody carries its rows as lists of cell texts. -/
structure TableModel where
  thead : Option TheadModel
  tbody : Option (List (List String))
deriving DecidableEq

/-- Model of the `div.v-table__wrapper`: `table_wrapper.find("table")` may fail. -/
structure WrapperModel where
  table : Option TableModel
deriving DecidableEq

/-- Model of the rendered sp2kp page: `soup.find("div", class_="v-table__wrapper")`
may fail. -/
structure SembakoDoc where
  tableWrapper : Option WrapperModel
deriving DecidableEq

/-- Outcome of `scrape_sembako_data`: a success payload (the two header date
labels plus the extracted records) or an HTTP error status.  A `None`
dereference (`AttributeError`) is caught by the function's blanket
`except` and surfaces as a 500 error response. -/
inductive SembakoResult where
  | ok (dateYesterday dateToday : String) (data : List CommodityRecord)
  | err (code : Nat)
deriving DecidableEq

/-- `scrape_sembako_data` (`app.py` lines 186-253), from the parsed document
onward.  Missing wrapper or tbody return 404 responses; a missing table,
thead, or header row raises `AttributeError` on the following attribute
access, caught by the blanket handler as a 500; the date labels come from
header cells 2 and 3 with literal defaults when the header row is shorter. -/
def scrape_sembako_data (doc : SembakoDoc) : SembakoResult :=
  match doc.tableWrapper with
  | none => .err 404
  | some w =>
    match w.table with
    | none => .err 500
    | some t =>
      match t.tbody with
      | none => .err 404
      | some rows =>
        match t.thead with
        | none => .err 500
        | some th =>
          match th.tr with
          | none => .err 500
          | some ths =>
            .ok (ths.getD 2 "Yesterday") (ths.getD 3 "Today") (processRows rows)

/-- C7: the body-row filter of the commodity-price extraction.  The output is
exactly the rows with at least 5 cells and a non-empty name cell, each mapped
through the field normalizers (first conjunct, so a <5-cell row contributes
nothing and the total function never raises); the remaining conjuncts restate
the three row-level cases. -/
theorem C7_sembako_row_filtering :
    (∀ rows : List (List String),
       processRows rows
         = (rows.filter fun c => decide (5 ≤ c.length ∧ cellText c 0 ≠ "")).map mkCommodity)
    ∧ (∀ rows cells, cells.length < 5 → processRows (cells :: rows) = processRows rows)
    ∧ (∀ rows cells, 5 ≤ cells.length → cellText cells 0 = "" →
         processRows (cells :: rows) = processRows rows)
    ∧ (∀ rows cells, 5 ≤ cells.length → cellText cells 0 ≠ "" →
         processRows (cells :: rows) = mkCommodity cells :: processRows rows) := by
  have hmain : ∀ rows : List (List String),
      processRows rows
        = (rows.filter fun c => decide (5 ≤ c.length ∧ cellText c 0 ≠ "")).map mkCommodity := by
    intro rows
    induction rows with
    | nil => rfl
    | cons cells rest ih =>
        by_cases h5 : 5 ≤ cells.length
        · by_cases hk : cellText cells 0 = ""
          · simp [processRows, h5, hk, List.filter_cons, ih]
          · simp [processRows, h5, hk, List.filter_cons, ih]
        · simp [processRows, h5, List.filter_cons, ih]
  refine ⟨hmain, ?_, ?_, ?_⟩
  · intro rows cells h
    simp [processRows, Nat.not_le.mpr h]
  · intro rows cells h5 hk
    simp [processRows, h5, hk]
  · intro rows cells h5 hk
    simp [processRows, h5, hk]

/-- C7 witness: a 2-cell row is dropped; the spec's end-to-end example row
is kept and fully normalized. -/
theorem C7_witness :
    processRows [["a", "b"]] = []
    ∧ processRows [["Beras", "kg", "Rp 14.500", "Rp 14.000", "-500"]]
        = [⟨"Beras", "kg", 14500, 14000, -500⟩] := by
  constructor
  · have h := C7_sembako_row_filtering.2.1 [] ["a", "b"] (by decide)
    exact h.trans rfl
  · have h := C7_sembako_row_filtering.2.2.2 [] ["Beras", "kg", "Rp 14.500", "Rp 14.000", "-500"]
      (by decide) (by decide)
    rw [h]
    decide

/-- C8 counterexample: a document whose table has a tbody with a data row but
no `<thead>` at all ("headers are absent").  The claim says the literal
defaults are used and the extraction succeeds; the code instead raises
`AttributeError` on `thead.find("tr")`, caught by the blanket handler as a
500 error response. -/
theorem C8_counterexample :
    scrape_sembako_data ⟨some ⟨some ⟨none, some [["Beras", "kg", "1", "2", "3"]]⟩⟩⟩
      = .err 500 := by
  decide

/-- C8 amended: the date labels are read from header cells at fixed indices 2
and 3, with literal defaults `"Yesterday"`/`"Today"` whenever the header row
is too short, and the extraction succeeds for any document whose header row
is present but too short; but when the `<thead>` (or its first row) is absent
the extraction errors (HTTP 500) instead of using the defaults. -/
theorem C8_header_labels_amended :
    (∀ (ths : List String) (rows : List (List String)),
       scrape_sembako_data ⟨some ⟨some ⟨some ⟨some ths⟩, some rows⟩⟩⟩
         = .ok (ths.getD 2 "Yesterday") (ths.getD 3 "Today") (processRows rows))
    ∧ (∀ ths : List String, ths.length ≤ 2 → ths.getD 2 "Yesterday" = "Yesterday")
    ∧ (∀ ths : List String, ths.length ≤ 3 → ths.getD 3 "Today" = "Today")
    ∧ (∀ rows : List (List String),
       scrape_sembako_data ⟨some ⟨some ⟨none, some rows⟩⟩⟩ = .err 500)
    ∧ (∀ rows : List (List String),
       scrape_sembako_data ⟨some ⟨some ⟨some ⟨none⟩, some rows⟩⟩⟩ = .err 500) := by
  refine ⟨fun ths rows => rfl, ?_, ?_, fun rows => rfl, fun rows => rfl⟩
  · intro ths h
    exact List.getD_eq_default _ _ h
  · intro ths h
    exact List.getD_eq_default _ _ h

/-- C8 witness: concrete instances of the amended claim — a 2-cell header row
yields both defaults and the extraction succeeds. -/
theorem C8_witness :
    scrape_sembako_data ⟨some ⟨some ⟨some ⟨some ["No", "Komoditas"]⟩, some []⟩⟩⟩
      = .ok "Yesterday" "Today" []
    ∧ (["No", "Komoditas"] : List String).getD 2 "Yesterday" = "Yesterday" := by
  constructor
  · have h := C8_header_labels_amended.1 ["No", "Komoditas"] []
    rw [h]
    have h2 := C8_header_labels_amended.2.1 ["No", "Komoditas"] (by decide)
    have h3 := C8_header_labels_amended.2.2.1 ["No", "Komoditas"] (by decide)
    rw [h2, h3]
    rfl
  · exact C8_header_labels_amended.2.1 ["No", "Komoditas"] (by decide)

/-- A snapshot cache file on disk: its last-modification time (whole seconds)
and its loaded content.  `content = none` models every way the load can fail
(corrupt or unparseable JSON, I/O error) or yield a falsy/ill-shaped document
— the source's `load_cache`-family returns `None` on any exception and the
callers test truthiness (and, for cinema, the presence of `"items"`). -/
structure CacheFile (α : Type) where
  mtime : Int
  content : Option α
deriving DecidableEq

/-- `is_cache_valid` (`app.py` lines 127-139): the sembako cache is valid iff
the file exists and its modification time is at or after local midnight of
the current day.  `midnight` is the value the code computes as
`datetime.now().replace(hour=0, minute=0, second=0, microsecond=0)`. -/
def is_cache_valid {α : Type} (file : Option (CacheFile α)) (midnight : Int) : Bool :=
  match file with
  | none => false
  | some f => decide (midnight ≤ f.mtime)

/-- `is_cinema_cache_valid` (`app.py` lines 933-950): the cinema cache is
valid iff the file exists and `now - mtime < 6*24*60*60`. -/
def is_cinema_cache_valid {α : Type} (file : Option (CacheFile α)) (now : Int) : Bool :=
  match file with
  | none => false
  | some f => decide (now - f.mtime < 6 * 24 * 60 * 60)

/-- `is_events_cache_valid` (`app.py` lines 1012-1029): the events cache is
valid iff the file exists and `now - mtime < 5*24*60*60`. -/
def is_events_cache_valid {α : Type} (file : Option (CacheFile α)) (now : Int) : Bool :=
  match file with
  | none => false
  | some f => decide (now - f.mtime < 5 * 24 * 60 * 60)

/-- The response of a cached-resource route: served from cache (with the
cache file's timestamp, `from_cache=True`), freshly scraped
(`from_cache=False`), or an error payload with its HTTP status. -/
inductive Resp (α : Type) where
  | fromCache (data : α) (cacheDate : Int)
  | fresh (data : α)
  | error (code : Nat)
deriving DecidableEq

/-- What one request to a cached-resource route produces: the response, a
flag recording whether the scraper (browser fetch + extraction) ran, and the
state of the cache file afterwards. -/
structure GetResult (α : Type) where
  resp : Resp α
  scraped : Bool
  file : Option (CacheFile α)
deriving DecidableEq

/-- The environment one `/api/sembako` request runs in: the clock (midnight
of the current day and the current time), the cache file, the outcome the
scraper would produce if invoked, whether `save_cache` would succeed, and —
since `save_cache` opens the file in `"w"` mode (truncating it) before
`json.dump` runs — the file-system state a failed save would leave behind,
which the code does not determine (unchanged if the open itself fails,
truncated or partially written otherwise). -/
structure SembakoEnv (α : Type) where
  midnight : Int
  now : Int
  file : Option (CacheFile α)
  scrapeResult : Except Nat α
  saveOk : Bool
  failedFile : Option (CacheFile α)

/-- The refresh path of `get_sembako_prices` (`app.py` lines 283-294): scrape;
on status 200 save best-effort (the boolean result of `save_cache` is
ignored and the response is returned either way) and return the fresh
payload; otherwise forward the error response.  Either way the scraper ran.
A failed save leaves the file in the environment-determined `failedFile`
state: `save_cache` truncates on open before dumping, so the code guarantees
nothing about the on-disk state after a failure. -/
def refreshSembako {α : Type} (e : SembakoEnv α) : GetResult α :=
  match e.scrapeResult with
  | .ok d => ⟨.fresh d, true, if e.saveOk then some ⟨e.now, some d⟩ else e.failedFile⟩
  | .error c => ⟨.error c, true, e.file⟩

/-- `get_sembako_prices` (`app.py` lines 269-299): if the cache is valid and
loads to a truthy document, serve it with `from_cache=True`; otherwise fall
through to the refresh path. -/
def get_sembako_prices {α : Type} (e : SembakoEnv α) : GetResult α :=
  if is_cache_valid e.file e.midnight then
    match e.file with
    | some f =>
      match f.content with
      | some d => ⟨.fromCache d f.mtime, false, e.file⟩
      | none => refreshSembako e
    | none => refreshSembako e
  else refreshSembako e

/-- The environment of one `/api/cinema` request (no daily boundary: the
rolling window only needs `now`).  `failedFile` is the undetermined
file-system state a failed `save_cinema_cache` leaves behind (it truncates
on open before dumping). -/
structure CinemaEnv (α : Type) where
  now : Int
  file : Option (CacheFile α)
  scrapeResult : Except Nat α
  saveOk : Bool
  failedFile : Option (CacheFile α)

/-- The refresh path of `get_cinema_data` (`app.py` lines 993-1004); as with
`refreshSembako`, a failed save leaves the environment-determined
`failedFile` state. -/
def refreshCinema {α : Type} (e : CinemaEnv α) : GetResult α :=
  match e.scrapeResult with
  | .ok d => ⟨.fresh d, true, if e.saveOk then some ⟨e.now, some d⟩ else e.failedFile⟩
  | .error c => ⟨.error c, true, e.file⟩

/-- `get_cinema_data` (`app.py` lines 974-1009): serve the cache when it is
less than 6 days old and loads to a document carrying `"items"`; otherwise
refresh.  `content = none` covers both a failed load and a missing
`"items"` key. -/
def get_cinema_data {α : Type} (e : CinemaEnv α) : GetResult α :=
  if is_cinema_cache_valid e.file e.now then
    match e.file with
    | some f =>
      match f.content with
      | some d => ⟨.fromCache d f.mtime, false, e.file⟩
      | none => refreshCinema e
    | none => refreshCinema e
  else refreshCinema e

/-- The environment of one `/api/events` request.  `failedFile` is the
undetermined file-system state a failed `save_events_cache` leaves behind
(it truncates on open before dumping). -/
structure EventsEnv (α : Type) where
  now : Int
  file : Option (CacheFile α)
  scrapeResult : Except Nat α
  saveOk : Bool
  failedFile : Option (CacheFile α)

/-- The refresh path of `get_events_data` (`app.py` lines 1156-1167); as with
`refreshSembako`, a failed save leaves the environment-determined
`failedFile` state. -/
def refreshEvents {α : Type} (e : EventsEnv α) : GetResult α :=
  match e.scrapeResult with
  | .ok d => ⟨.fresh d, true, if e.saveOk then some ⟨e.now, some d⟩ else e.failedFile⟩
  | .error c => ⟨.error c, true, e.file⟩

/-- `get_events_data` (`app.py` lines 1141-1172): serve the cache when it is
less than 5 days old and loads to a truthy document; otherwise refresh. -/
def get_events_data {α : Type} (e : EventsEnv α) : GetResult α :=
  if is_events_cache_valid e.file e.now then
    match e.file with
    | some f =>
      match f.content with
      | some d => ⟨.fromCache d f.mtime, false, e.file⟩
      | none => refreshEvents e
    | none => refreshEvents e
  else refreshEvents e

/-- C2: each resource's cache validity check implements its freshness policy
exactly.  Daily boundary for prices: given that the file exists, valid iff
`midnight ≤ mtime`, so a snapshot written one second before a midnight is
valid under the previous day's midnight and invalid from the next (concrete
boundary conjunct, with day D starting at 0 and day D+1 at 86400).  Rolling
windows: cinema valid iff `now - mtime < 6*24*3600` (so age `6*24*3600 - 1`
valid, age `6*24*3600 + 1` invalid), events the same with 5 days. -/
theorem C2_freshness_policies {α : Type} :
    (∀ (f : CacheFile α) (midnight : Int),
       is_cache_valid (some f) midnight = true ↔ midnight ≤ f.mtime)
    ∧ (∀ midnight : Int, is_cache_valid (none : Option (CacheFile α)) midnight = false)
    ∧ (∀ c : Option α,
        is_cache_valid (some ⟨86399, c⟩) 0 = true
        ∧ is_cache_valid (some ⟨86399, c⟩) 86400 = false)
    ∧ (∀ (f : CacheFile α) (now : Int),
       is_cinema_cache_valid (some f) now = true ↔ now - f.mtime < 6 * 24 * 3600)
    ∧ (∀ (c : Option α) (now : Int),
        is_cinema_cache_valid (some ⟨now - (6 * 24 * 3600 - 1), c⟩) now = true
        ∧ is_cinema_cache_valid (some ⟨now - (6 * 24 * 3600 + 1), c⟩) now = false)
    ∧ (∀ (f : CacheFile α) (now : Int),
       is_events_cache_valid (some f) now = true ↔ now - f.mtime < 5 * 24 * 3600)
    ∧ (∀ (c : Option α) (now : Int),
        is_events_cache_valid (some ⟨now - (5 * 24 * 3600 - 1), c⟩) now = true
        ∧ is_events_cache_valid (some ⟨now - (5 * 24 * 3600 + 1), c⟩) now = false) := by
  refine ⟨?_, ?_, ?_, ?_, ?_, ?_, ?_⟩
  · intro f midnight
    simp [is_cache_valid]
  · intro midnight
    rfl
  · intro c
    constructor <;> simp [is_cache_valid]
  · intro f now
    simp [is_cinema_cache_valid]
  · intro c now
    constructor <;> simp [is_cinema_cache_valid]
  · intro f now
    simp [is_events_cache_valid]
  · intro c now
    constructor <;> simp [is_events_cache_valid]

/-- C2 witness: the validity checks evaluated at concrete timestamps through
the theorem — a snapshot written at second 86399 (23:59:59 of day D) is
valid while midnight is 0 and invalid once midnight is 86400; a cinema
snapshot aged `6*24*3600 - 1` seconds at time 10^6 is valid; an events
snapshot aged `5*24*3600 + 1` seconds at time 10^6 is invalid. -/
theorem C2_witness :
    is_cache_valid (some (⟨86399, some 0⟩ : CacheFile Nat)) 0 = true
    ∧ is_cache_valid (some (⟨86399, some 0⟩ : CacheFile Nat)) 86400 = false
    ∧ is_cinema_cache_valid (some (⟨1000000 - (6 * 24 * 3600 - 1), some 0⟩ : CacheFile Nat)) 1000000 = true
    ∧ is_events_cache_valid (some (⟨1000000 - (5 * 24 * 3600 + 1), some 0⟩ : CacheFile Nat)) 1000000 = false := by
  exact ⟨(C2_freshness_policies.2.2.1 (some 0)).1,
         (C2_freshness_policies.2.2.1 (some 0)).2,
         (C2_freshness_policies.2.2.2.2.1 (some 0) 1000000).1,
         (C2_freshness_policies.2.2.2.2.2.2 (some 0) 1000000).2⟩

/-- One entry of the trends API's `trending_searches` list: `query`,
`search_volume` (`item.get("search_volume", 0)`: 0 stands for a missing
key), and the names of its `categories` list in order. -/
structure TrendItem where
  query : String
  searchVolume : Nat
  categories : List String
deriving DecidableEq

/-- One formatted entry of the `/api/google_trend` response. -/
structure FormattedTrend where
  query : String
  searchVolume : Nat
  category : String
deriving DecidableEq

/-- The formatting loop of `get_trend` (`app.py` lines 451-460 and 488-497):
first 10 items, category = first category name or `"Unknown"` when the
`categories` list is missing or empty. -/
def formatTrends (items : List TrendItem) : List FormattedTrend :=
  (items.take 10).map fun it =>
    ⟨it.query, it.searchVolume,
     match it.categories with
     | [] => "Unknown"
     | c :: _ => c⟩

/-- The environment of one `/api/google_trend` request: the clock, the
`trending_now.json` file (content `none` = the file's JSON is corrupt or
unreadable), the `SERPAPI_KEY` environment variable, and the
`trending_searches` list the external API would return. -/
structure TrendEnv where
  now : Int
  file : Option (CacheFile (List TrendItem))
  apiKey : Option String
  apiResult : List TrendItem

/-- The response of `/api/google_trend`: served from the stored file,
refreshed from the external API, an explicit error payload, or an unhandled
exception (which Flask surfaces as a generic 500). -/
inductive TrendResp where
  | served (items : List FormattedTrend)
  | refreshed (items : List FormattedTrend)
  | error (code : Nat)
  | exception
deriving DecidableEq

/-- What one `/api/google_trend` request produces: the response, whether the
external trends API was called, and the state of `trending_now.json`
afterwards. -/
structure TrendResult where
  resp : TrendResp
  apiCalled : Bool
  file : Option (CacheFile (List TrendItem))
deriving DecidableEq

/-- `get_trend` (`app.py` lines 429-499).  `modification_timestamp` is 0 when
the file does not exist; `selisih = (now - mtime)/60/60 <= 24.00` is the
exact integer comparison `now - mtime ≤ 86400` at whole-second timestamps.
On the fresh branch the file is opened and parsed with no exception handler:
a missing or unreadable file raises (unhandled).  On the stale branch a
missing `SERPAPI_KEY` yields a 500 error without calling the API; otherwise
the API is called and its full raw result replaces the file before the
formatted response is returned. -/
def get_trend (e : TrendEnv) : TrendResult :=
  let mtime : Int := match e.file with | some f => f.mtime | none => 0
  if e.now - mtime ≤ 86400 then
    match e.file with
    | some f =>
      match f.content with
      | some items => ⟨.served (formatTrends items), false, e.file⟩
      | none => ⟨.exception, false, e.file⟩
    | none => ⟨.exception, false, e.file⟩
  else
    match e.apiKey with
    | none => ⟨.error 500, false, e.file⟩
    | some _ => ⟨.refreshed (formatTrends e.apiResult), true, some ⟨e.now, some e.apiResult⟩⟩

/-- C10: the trends refresh policy.  Under a realistic clock (more than a day
past the epoch, so a missing file's sentinel timestamp 0 counts as stale), a
readable stored file is served iff its age is at most 24 hours — the
boundary is inclusive (`≤ 86400`); otherwise, provided `SERPAPI_KEY` is set,
the external API is called and its full raw result replaces the stored file
(`some ⟨now, some apiResult⟩`) before the formatted top-10 response is
returned; a missing file likewise goes to the API. -/
theorem C10_trend_ttl_inclusive (e : TrendEnv) (hclock : 86400 < e.now)
    (hkey : e.apiKey ≠ none) :
    (∀ f items, e.file = some f → f.content = some items →
       (e.now - f.mtime ≤ 86400 →
          get_trend e = ⟨.served (formatTrends items), false, e.file⟩)
       ∧ (86400 < e.now - f.mtime →
          get_trend e = ⟨.refreshed (formatTrends e.apiResult), true,
                         some ⟨e.now, some e.apiResult⟩⟩))
    ∧ (e.file = none →
       get_trend e = ⟨.refreshed (formatTrends e.apiResult), true,
                      some ⟨e.now, some e.apiResult⟩⟩) := by
  obtain ⟨k, hk⟩ : ∃ k, e.apiKey = some k := by
    cases h : e.apiKey with
    | none => exact absurd h hkey
    | some k => exact ⟨k, rfl⟩
  constructor
  · intro f items hf hc
    constructor
    · intro hfresh
      simp [get_trend, hf, hfresh, hc]
    · intro hstale
      simp [get_trend, hf, Int.not_le.mpr hstale, hk]
  · intro hf
    have h0 : ¬ (e.now - 0 ≤ 86400) := by omega
    simp [get_trend, hf, h0, hk]
    omega

/-- C10 witness: with the clock at 200000 seconds, a readable file aged
exactly 24 hours (mtime 113600) is still served; one aged 86401 seconds
(mtime 113599) triggers the API call and is fully replaced. -/
theorem C10_witness :
    get_trend ⟨200000, some ⟨113600, some [⟨"q", 5, ["Sports"]⟩]⟩, some "k", []⟩
      = ⟨.served [⟨"q", 5, "Sports"⟩], false, some ⟨113600, some [⟨"q", 5, ["Sports"]⟩]⟩⟩
    ∧ get_trend ⟨200000, some ⟨113599, some [⟨"q", 5, ["Sports"]⟩]⟩, some "k", [⟨"r", 7, []⟩]⟩
      = ⟨.refreshed [⟨"r", 7, "Unknown"⟩], true, some ⟨200000, some [⟨"r", 7, []⟩]⟩⟩ := by
  constructor
  · have h := ((C10_trend_ttl_inclusive
        ⟨200000, some ⟨113600, some [⟨"q", 5, ["Sports"]⟩]⟩, some "k", []⟩
        (by decide) (by decide)).1 _ _ rfl rfl).1 (by decide)
    rw [h]
    rfl
  · have h := ((C10_trend_ttl_inclusive
        ⟨200000, some ⟨113599, some [⟨"q", 5, ["Sports"]⟩]⟩, some "k", [⟨"r", 7, []⟩]⟩
        (by decide) (by decide)).1 _ _ rfl rfl).2 (by decide)
    rw [h]
    rfl

/-- Boolean prefix test on character lists (model of Python substring search,
step 1). -/
def startsWithL : List Char → List Char → Bool
  | [], _ => true
  | _ :: _, [] => false
  | a :: as, b :: bs => a == b && startsWithL as bs

/-- Boolean substring test on character lists: `containsSub pat s` models
Python's `pat in s`. -/
def containsSub (pat : List Char) : List Char → Bool
  | [] => startsWithL pat []
  | c :: rest => startsWithL pat (c :: rest) || containsSub pat rest

/-- Python `s.lower()` restricted to ASCII, as a character list. -/
def lowerList (s : String) : List Char := s.data.map Char.toLower

/-- One `<div>` inside a flight row: its class tokens, its stripped text,
the stripped text of its first `<a>` descendant (if any), of its first
`<span>` descendant (if any), and its `stripped_strings` sequence. -/
structure FDiv where
  classes : List String
  text : String
  linkText : Option String
  spanText : Option String
  strippedStrings : List String
deriving DecidableEq

/-- One flight row (`div.flight-row` or a fallback match): its own class
tokens and its `<div>` children in document order. -/
structure FRow where
  classes : List String
  divs : List FDiv
deriving DecidableEq

/-- BeautifulSoup `class_="tok"` match: the element's class list contains the
token exactly. -/
def hasClassTok (tok : String) (d : FDiv) : Bool := d.classes.contains tok

/-- BeautifulSoup `class_=lambda x: x and "pat" in x.lower()` match: the
lambda is applied to each class token; a truthy (non-empty) token whose
lowercase form contains the pattern matches. -/
def classSub (pat : String) (d : FDiv) : Bool :=
  d.classes.any fun t => (!(t == "")) && containsSub pat.data (lowerList t)

/-- The arrival-time fallback locator (`app.py` lines 656-662).  Python's
operator precedence parses the lambda as
`(x and "hour" in x.lower()) or ("time" in x.lower())`. -/
def arrivalFallback (d : FDiv) : Bool :=
  d.classes.any fun t =>
    ((!(t == "")) && containsSub "hour".data (lowerList t))
      || containsSub "time".data (lowerList t)

/-- `row.find("div", class_=p)`: first matching `<div>` child. -/
def findCol (p : FDiv → Bool) (r : FRow) : Option FDiv := r.divs.find? p

/-- Primary locator, then fallback locator (`if not col: col = row.find(...)`). -/
def firstCol (p q : FDiv → Bool) (r : FRow) : Option FDiv :=
  match findCol p r with
  | some d => some d
  | none => findCol q r

/-- Origin locator chain (`app.py` lines 647-652): exact class
`flight-col__dest-term`, else a class containing `dest`; empty text if
neither matches. -/
def resolveOrigin (r : FRow) : String :=
  match firstCol (hasClassTok "flight-col__dest-term") (classSub "dest") r with
  | some d => d.text
  | none => ""

/-- Arrival-time locator chain (`app.py` lines 655-665). -/
def resolveArrival (r : FRow) : String :=
  match firstCol (hasClassTok "flight-col__hour") arrivalFallback r with
  | some d => d.text
  | none => ""

/-- Flight-number locator chain (`app.py` lines 668-679): locate the column,
then the text of its first link; empty if no column or no link. -/
def resolveFlightNumbers (r : FRow) : String :=
  match firstCol (hasClassTok "flight-col__flight") (classSub "flight") r with
  | none => ""
  | some d =>
    match d.linkText with
    | some t => t
    | none => ""

/-- Airline locator chain (`app.py` lines 682-698): locate the column, then
its first span's text, else its first stripped string, else empty. -/
def resolveAirlines (r : FRow) : String :=
  match firstCol (hasClassTok "flight-col__airline") (classSub "airline") r with
  | none => ""
  | some d =>
    match d.spanText with
    | some t => t
    | none =>
      match d.strippedStrings with
      | s :: _ => s
      | [] => ""

/-- Terminal locator chain (`app.py` lines 701-706). -/
def resolveTerminal (r : FRow) : String :=
  match firstCol (hasClassTok "flight-col__term") (classSub "term") r with
  | some d => d.text
  | none => ""

/-- Status locator chain (`app.py` lines 709-714). -/
def resolveStatus (r : FRow) : String :=
  match firstCol (hasClassTok "flight-col__status") (classSub "status") r with
  | some d => d.text
  | none => ""

/-- One extracted flight record (`app.py` lines 718-725). -/
structure FlightRecord where
  origin : String
  arrivalTime : String
  flightNumbers : String
  airlines : String
  terminal : String
  status : String
deriving DecidableEq

/-- The record built from one flight row. -/
def mkFlight (r : FRow) : FlightRecord :=
  ⟨resolveOrigin r, resolveArrival r, resolveFlightNumbers r,
   resolveAirlines r, resolveTerminal r, resolveStatus r⟩

/-- `"flight-titol" in row.get("class", [])`: the header row marker. -/
def isHeaderRow (r : FRow) : Bool := r.classes.contains "flight-titol"

/-- `row.find_all("div", class_="flight-col")`: the row's cells. -/
def flightCols (r : FRow) : List FDiv := r.divs.filter (hasClassTok "flight-col")

/-- A row the loop keeps: not the header, at least 6 cells, and both origin
and arrival time resolving to non-empty text. -/
def keepRow (r : FRow) : Bool :=
  !isHeaderRow r && decide (6 ≤ (flightCols r).length)
    && !(resolveOrigin r == "") && !(resolveArrival r == "")

/-- A row the loop records as a parsing error: not the header, at least 6
cells, but origin or arrival time empty (`app.py` lines 727-730).  Rows with
fewer than 6 cells are skipped without an error record. -/
def rowError (r : FRow) : Bool :=
  !isHeaderRow r && decide (6 ≤ (flightCols r).length)
    && ((resolveOrigin r == "") || (resolveArrival r == ""))

/-- The row loop of `scrape_flight_arrivals` (`app.py` lines 636-736):
extracted flights in order, and the number of row-level parsing errors. -/
def processFlightRows : List FRow → List FlightRecord × Nat
  | [] => ([], 0)
  | r :: rest =>
    let p := processFlightRows rest
    if isHeaderRow r then p
    else if 6 ≤ (flightCols r).length then
      if resolveOrigin r ≠ "" ∧ resolveArrival r ≠ "" then (mkFlight r :: p.1, p.2)
      else (p.1, p.2 + 1)
    else p

/-- Outcome of `scrape_flight_arrivals`: an error response with its HTTP
status, or a success response carrying the flights and whether the
high-error-rate `warning` annotation is attached. -/
inductive FlightOutcome where
  | failure (code : Nat)
  | success (flights : List FlightRecord) (warning : Bool)
deriving DecidableEq

/-- `scrape_flight_arrivals` (`app.py` lines 610-781) from the located flight
rows onward: no rows at all is a 404; zero validated rows is a 500 (both the
`parsing_errors > 0 and flights == 0` branch and the final `flights == 0`
branch); otherwise success, with a warning iff
`len(parsing_errors) > len(flights) * 0.3` — written here as the exact
integer comparison `3 * flights < 10 * errors`, which agrees with the float
one for every realistic list length. -/
def scrape_flight_arrivals (rows : List FRow) : FlightOutcome :=
  if rows = [] then .failure 404
  else
    let p := processFlightRows rows
    if p.1 = [] then .failure 500
    else .success p.1 (decide (3 * p.1.length < 10 * p.2))

/-- The rendered flight-arrivals page, reduced to its located rows. -/
structure FlightEnv where
  rows : List FRow
deriving DecidableEq

/-- `get_flight_arrivals` (`app.py` lines 809-817): the route body is a bare
call to `scrape_flight_arrivals` — there is no cache file, no validity
check, and no persistence for this resource, so the fetch-and-extract
pipeline (second component, `true`) runs on every request. -/
def get_flight_arrivals (e : FlightEnv) : FlightOutcome × Bool :=
  (scrape_flight_arrivals e.rows, true)

theorem processFlightRows_spec (rows : List FRow) :
    (processFlightRows rows).1 = (rows.filter keepRow).map mkFlight
    ∧ (processFlightRows rows).2 = rows.countP rowError := by
  induction rows with
  | nil => exact ⟨rfl, rfl⟩
  | cons r rest ih =>
      obtain ⟨ih1, ih2⟩ := ih
      by_cases hh : isHeaderRow r = true
      · have hk : keepRow r = false := by simp [keepRow, hh]
        have he : rowError r = false := by simp [rowError, hh]
        refine ⟨?_, ?_⟩ <;>
          simp [processFlightRows, hh, List.filter_cons, hk, he, List.countP_cons, ih1, ih2]
      · have hh' : isHeaderRow r = false := by simpa using hh
        by_cases h6 : 6 ≤ (flightCols r).length
        · by_cases ho : resolveOrigin r = ""
          · have hk : keepRow r = false := by simp [keepRow, ho]
            have he : rowError r = true := by simp [rowError, hh', h6, ho]
            refine ⟨?_, ?_⟩ <;>
              simp [processFlightRows, hh', h6, ho, List.filter_cons, hk, he,
                List.countP_cons, ih1, ih2]
          · by_cases ha : resolveArrival r = ""
            · have hk : keepRow r = false := by simp [keepRow, ha]
              have he : rowError r = true := by simp [rowError, hh', h6, ha]
              refine ⟨?_, ?_⟩ <;>
                simp [processFlightRows, hh', h6, ho, ha, List.filter_cons, hk, he,
                  List.countP_cons, ih1, ih2]
            · have hk : keepRow r = true := by simp [keepRow, hh', h6, ho, ha]
              have he : rowError r = false := by simp [rowError, ho, ha]
              refine ⟨?_, ?_⟩ <;>
                simp [processFlightRows, hh', h6, ho, ha, List.filter_cons, hk, he,
                  List.countP_cons, ih1, ih2]
        · have hk : keepRow r = false := by simp [keepRow, h6]
          have he : rowError r = false := by simp [rowError, h6]
          refine ⟨?_, ?_⟩ <;>
            simp [processFlightRows, hh', h6, List.filter_cons, hk, he,
              List.countP_cons, ih1, ih2]

/-- A flight row with only five `flight-col` cells, whose origin and
arrival-time locator chains nevertheless resolve to non-empty text. -/
def fRowShort : FRow :=
  ⟨[], [⟨["flight-col", "flight-col__dest-term"], "SIN", none, none, []⟩,
        ⟨["flight-col", "flight-col__hour"], "10:00", none, none, []⟩,
        ⟨["flight-col"], "", none, none, []⟩,
        ⟨["flight-col"], "", none, none, []⟩,
        ⟨["flight-col"], "", none, none, []⟩]⟩

/-- C6 counterexample: in `fRowShort` both `origin` and `arrival_time`
resolve to non-empty text, so the claim says the row is kept; the code's
`len(cols) >= 6` gate drops it instead — silently (no parsing-error record),
so a page consisting of this single row yields zero flights and a 500
failure rather than a one-flight success. -/
theorem C6_counterexample :
    resolveOrigin fRowShort = "SIN"
    ∧ resolveArrival fRowShort = "10:00"
    ∧ isHeaderRow fRowShort = false
    ∧ (flightCols fRowShort).length = 5
    ∧ scrape_flight_arrivals [fRowShort] = .failure 500
    ∧ (processFlightRows [fRowShort]).2 = 0 := by
  decide

/-- C6 amended: among rows that are not the header row and have at least six
`flight-col` cells, a row is kept iff both origin and arrival time resolve
to non-empty text, and a dropped such row is recorded as a parsing error;
rows with fewer than six cells are dropped without an error record (first
two conjuncts: the loop's exact output and error count, and the keep
predicate spelled out).  Zero validated rows is always a failure; at least
one validated row is always a success — never a failure — carrying the
warning annotation iff the error count exceeds 30% of the accepted row
count (`3·flights < 10·errors`).  The remaining fields are optional and
default to the empty string (last two conjuncts: rows offering no link text
or no span/stripped strings resolve those fields to `""` yet can be kept). -/
theorem C6_flight_row_validity_amended :
    (∀ rows : List FRow,
       (processFlightRows rows).1 = (rows.filter keepRow).map mkFlight
       ∧ (processFlightRows rows).2 = rows.countP rowError)
    ∧ (∀ r : FRow, keepRow r = true ↔
         (isHeaderRow r = false ∧ 6 ≤ (flightCols r).length
           ∧ resolveOrigin r ≠ "" ∧ resolveArrival r ≠ ""))
    ∧ (∀ rows : List FRow, (processFlightRows rows).1 = [] →
         ∃ c, scrape_flight_arrivals rows = .failure c)
    ∧ (∀ rows : List FRow, (processFlightRows rows).1 ≠ [] →
         scrape_flight_arrivals rows
           = .success (processFlightRows rows).1
               (decide (3 * (processFlightRows rows).1.length < 10 * (processFlightRows rows).2)))
    ∧ (∀ r : FRow, (∀ d ∈ r.divs, d.linkText = none) → resolveFlightNumbers r = "")
    ∧ (∀ r : FRow, (∀ d ∈ r.divs, d.spanText = none ∧ d.strippedStrings = []) →
         resolveAirlines r = "") := by
  refine ⟨processFlightRows_spec, ?_, ?_, ?_, ?_, ?_⟩
  · intro r
    simp [keepRow, and_assoc]
  · intro rows h
    by_cases hr : rows = []
    · exact ⟨404, by simp [scrape_flight_arrivals, hr]⟩
    · exact ⟨500, by simp [scrape_flight_arrivals, hr, h]⟩
  · intro rows h
    have hr : rows ≠ [] := by
      intro hcon
      rw [hcon] at h
      exact h rfl
    simp [scrape_flight_arrivals, hr, h]
  · intro r h
    unfold resolveFlightNumbers firstCol findCol
    cases h1 : r.divs.find? (hasClassTok "flight-col__flight") with
    | some d =>
        have hd := List.mem_of_find?_eq_some h1
        simp [h d hd]
    | none =>
        cases h2 : r.divs.find? (classSub "flight") with
        | some d =>
            have hd := List.mem_of_find?_eq_some h2
            simp [h d hd]
        | none => rfl
  · intro r h
    unfold resolveAirlines firstCol findCol
    cases h1 : r.divs.find? (hasClassTok "flight-col__airline") with
    | some d =>
        have hd := List.mem_of_find?_eq_some h1
        simp [(h d hd).1, (h d hd).2]
    | none =>
        cases h2 : r.divs.find? (classSub "airline") with
        | some d =>
            have hd := List.mem_of_find?_eq_some h2
            simp [(h d hd).1, (h d hd).2]
        | none => rfl

/-- A fully populated flight row with six cells. -/
def fRowGood : FRow :=
  ⟨[], [⟨["flight-col", "flight-col__dest-term"], "SIN", none, none, []⟩,
        ⟨["flight-col", "flight-col__hour"], "10:00", none, none, []⟩,
        ⟨["flight-col", "flight-col__flight"], "GA123", some "GA123", none, []⟩,
        ⟨["flight-col", "flight-col__airline"], "Garuda", none, some "Garuda", []⟩,
        ⟨["flight-col", "flight-col__term"], "3", none, none, []⟩,
        ⟨["flight-col", "flight-col__status"], "Landed", none, none, []⟩]⟩

/-- A six-cell flight row whose origin text is empty: rejected, and recorded
as a parsing error. -/
def fRowBad : FRow :=
  ⟨[], [⟨["flight-col", "flight-col__dest-term"], "", none, none, []⟩,
        ⟨["flight-col", "flight-col__hour"], "11:00", none, none, []⟩,
        ⟨["flight-col"], "", none, none, []⟩,
        ⟨["flight-col"], "", none, none, []⟩,
        ⟨["flight-col"], "", none, none, []⟩,
        ⟨["flight-col"], "", none, none, []⟩]⟩

/-- C6 witness: one accepted row plus one error row gives an error rate of
100% > 30%, and the outcome is still a success, carrying the warning flag. -/
theorem C6_witness :
    scrape_flight_arrivals [fRowGood, fRowBad]
      = .success [⟨"SIN", "10:00", "GA123", "Garuda", "3", "Landed"⟩] true := by
  have h := C6_flight_row_validity_amended.2.2.2.1 [fRowGood, fRowBad] (by decide)
  rw [h]
  decide

/-- The `<img>` inside a cinema slide's link: `src` and `alt` attributes
(absent attributes are the empty string, matching `.get(..., "")`). -/
structure CImg where
  src : String
  alt : String
deriving DecidableEq

/-- The first `<a>` of a cinema slide: its `href`, its first `<img>`
descendant (if any), the stripped text of its first `<span>` (if any), its
`title` attribute, and its own full stripped text. -/
structure CLink where
  href : String
  img : Option CImg
  spanText : Option String
  titleAttr : String
  linkText : String
deriving DecidableEq

/-- One `li.glide__slide` item: its first link (if any) and the full stripped
text of the whole `<li>`. -/
structure CItem where
  link : Option CLink
  allText : String
deriving DecidableEq

/-- One extracted movie record (`app.py` lines 898-901). -/
structure Movie where
  img : String
  title : String
deriving DecidableEq

/-- The five-step title fallback chain of `scrape_cinema_data`
(`app.py` lines 869-894): span text, link `title` attribute, image `alt`,
link's full text, then the whole item's text. -/
def resolveCineTitle (item : CItem) (l : CLink) (im : CImg) : String :=
  let t1 := match l.spanText with | some t => t | none => ""
  if t1 ≠ "" then t1
  else if l.titleAttr ≠ "" then l.titleAttr
  else if im.alt ≠ "" then im.alt
  else if l.linkText ≠ "" then l.linkText
  else item.allText

/-- The per-item candidate logic of `scrape_cinema_data`
(`app.py` lines 849-901): skip items without a link, whose link target does
not contain `movie-detail`, without an image, or with an empty image `src`;
then resolve the title and keep the item only if the title is non-empty. -/
def resolveCineItem (item : CItem) : Option Movie :=
  match item.link with
  | none => none
  | some l =>
    if containsSub "movie-detail".data l.href.data then
      match l.img with
      | none => none
      | some im =>
        if im.src = "" then none
        else
          let title := resolveCineTitle item l im
          if title = "" then none else some ⟨im.src, title⟩
    else none

/-- The movie candidates of the whole page, slide list by slide list
(the `movies.extend(temp_movies)` loop flattens them in order). -/
def cineMovies (slideLists : List (List CItem)) : List Movie :=
  (slideLists.map fun items => items.filterMap resolveCineItem).flatten

/-- The title-deduplication loop of `scrape_cinema_data`
(`app.py` lines 912-917): keep a movie iff its title was not seen before,
first occurrence wins. -/
def dedupMovies : List String → List Movie → List Movie
  | _, [] => []
  | seen, m :: rest =>
    if seen.contains m.title then dedupMovies seen rest
    else m :: dedupMovies (m.title :: seen) rest

/-- `scrape_cinema_data` (`app.py` lines 840-921) from the located slide
lists onward: collect candidates, deduplicate by title, truncate to 17. -/
def scrape_cinema_data (slideLists : List (List CItem)) : List Movie :=
  (dedupMovies [] (cineMovies slideLists)).take 17

theorem dedupMovies_titles (seen : List String) (ms : List Movie) :
    ((dedupMovies seen ms).map Movie.title).Nodup
    ∧ ∀ t ∈ (dedupMovies seen ms).map Movie.title, t ∉ seen := by
  induction ms generalizing seen with
  | nil => simp [dedupMovies]
  | cons m rest ih =>
      by_cases hmem : m.title ∈ seen
      · have hd : dedupMovies seen (m :: rest) = dedupMovies seen rest := by
          simp [dedupMovies, hmem]
        rw [hd]
        exact ih seen
      · have hd : dedupMovies seen (m :: rest) = m :: dedupMovies (m.title :: seen) rest := by
          simp [dedupMovies, hmem]
        rw [hd]
        obtain ⟨ihn, ihs⟩ := ih (m.title :: seen)
        refine ⟨?_, ?_⟩
        · simp only [List.map_cons, List.nodup_cons]
          refine ⟨?_, ihn⟩
          intro hc
          exact (ihs _ hc) (by simp)
        · intro t ht
          simp only [List.map_cons, List.mem_cons] at ht
          rcases ht with rfl | ht
          · exact hmem
          · intro hc
            exact (ihs t ht) (by simp [hc])

theorem dedupMovies_length (seen : List String) (ms : List Movie) :
    (dedupMovies seen ms).length
      = ((ms.map Movie.title).toFinset \ seen.toFinset).card := by
  induction ms generalizing seen with
  | nil => simp [dedupMovies]
  | cons m rest ih =>
      by_cases hmem : m.title ∈ seen
      · have hd : dedupMovies seen (m :: rest) = dedupMovies seen rest := by
          simp [dedupMovies, hmem]
        have hset : (((m :: rest).map Movie.title).toFinset \ seen.toFinset)
            = ((rest.map Movie.title).toFinset \ seen.toFinset) := by
          simp only [List.map_cons, List.toFinset_cons]
          exact Finset.insert_sdiff_of_mem _ (List.mem_toFinset.mpr hmem)
        rw [hd, hset]
        exact ih seen
      · have hd : dedupMovies seen (m :: rest) = m :: dedupMovies (m.title :: seen) rest := by
          simp [dedupMovies, hmem]
        have hset : ((rest.map Movie.title).toFinset \ (m.title :: seen).toFinset)
            = (((m :: rest).map Movie.title).toFinset \ seen.toFinset).erase m.title := by
          ext x
          simp only [Finset.mem_sdiff, List.mem_toFinset, List.toFinset_cons,
            Finset.mem_erase, Finset.mem_insert, List.map_cons, List.mem_cons,
            List.mem_map]
          constructor
          · rintro ⟨hx, hns⟩
            refine ⟨fun hc => hns (Or.inl hc), Or.inr hx, fun hc => hns (Or.inr hc)⟩
          · rintro ⟨hne, hx | hx, hns⟩
            · exact absurd hx hne
            · exact ⟨hx, fun hc => by
                rcases hc with hc | hc
                · exact hne hc
                · exact hns hc⟩
        have htmem : m.title ∈ (((m :: rest).map Movie.title).toFinset \ seen.toFinset) := by
          simp [hmem]
        rw [hd, List.length_cons, ih (m.title :: seen), hset]
        exact Finset.card_erase_add_one htmem

theorem dedupMovies_first_occurrence (seen : List String) (ms : List Movie) :
    ∀ m ∈ dedupMovies seen ms,
      m.title ∉ seen ∧ ms.find? (fun x => x.title == m.title) = some m := by
  induction ms generalizing seen with
  | nil => simp [dedupMovies]
  | cons a rest ih =>
      intro m hm
      by_cases hmem : a.title ∈ seen
      · have hd : dedupMovies seen (a :: rest) = dedupMovies seen rest := by
          simp [dedupMovies, hmem]
        rw [hd] at hm
        obtain ⟨hns, hfind⟩ := ih seen m hm
        have hne : (a.title == m.title) = false := by
          simp only [beq_eq_false_iff_ne, ne_eq]
          intro hc
          exact hns (hc ▸ hmem)
        refine ⟨hns, ?_⟩
        rw [List.find?_cons_of_neg _ (by simp [hne]), hfind]
      · have hd : dedupMovies seen (a :: rest) = a :: dedupMovies (a.title :: seen) rest := by
          simp [dedupMovies, hmem]
        rw [hd] at hm
        rcases List.mem_cons.mp hm with rfl | hm
        · refine ⟨hmem, ?_⟩
          rw [List.find?_cons_of_pos _ (by simp)]
        · obtain ⟨hns, hfind⟩ := ih (a.title :: seen) m hm
          have hna : m.title ≠ a.title := by
            intro hc
            exact hns (by simp [hc])
          refine ⟨fun hc => hns (by simp [hc]), ?_⟩
          have hne : (a.title == m.title) = false := by
            simp only [beq_eq_false_iff_ne, ne_eq]
            exact fun hc => hna hc.symm
          rw [List.find?_cons_of_neg _ (by simp [hne]), hfind]

/-- C9: cinema deduplication and truncation.  For every page: the output
titles are pairwise distinct; the output length is the number of distinct
candidate titles capped at 17 — so truncation happens after deduplication
(duplicates never use up one of the 17 slots); and every output record is
the first candidate bearing its title.  Moreover a slide list with two items
whose resolved titles coincide yields exactly the first record. -/
theorem C9_cinema_dedup_truncate :
    (∀ slideLists : List (List CItem),
       ((scrape_cinema_data slideLists).map Movie.title).Nodup
       ∧ (scrape_cinema_data slideLists).length
           = min (((cineMovies slideLists).map Movie.title).toFinset.card) 17
       ∧ ∀ m ∈ scrape_cinema_data slideLists,
           (cineMovies slideLists).find? (fun x => x.title == m.title) = some m)
    ∧ (∀ (i j : CItem) (m₁ m₂ : Movie),
         resolveCineItem i = some m₁ → resolveCineItem j = some m₂ →
         m₁.title = m₂.title → scrape_cinema_data [[i, j]] = [m₁]) := by
  constructor
  · intro slideLists
    refine ⟨?_, ?_, ?_⟩
    · have hnodup := (dedupMovies_titles [] (cineMovies slideLists)).1
      have hsub : ((scrape_cinema_data slideLists).map Movie.title).Sublist
          ((dedupMovies [] (cineMovies slideLists)).map Movie.title) := by
        unfold scrape_cinema_data
        rw [List.map_take]
        exact List.take_sublist _ _
      exact hnodup.sublist hsub
    · unfold scrape_cinema_data
      rw [List.length_take, dedupMovies_length]
      simp [Nat.min_comm]
    · intro m hm
      have hmem : m ∈ dedupMovies [] (cineMovies slideLists) := by
        unfold scrape_cinema_data at hm
        exact List.take_subset _ _ hm
      exact (dedupMovies_first_occurrence [] (cineMovies slideLists) m hmem).2
  · intro i j m₁ m₂ h1 h2 ht
    have hcm : cineMovies [[i, j]] = [m₁, m₂] := by
      simp [cineMovies, h1, h2]
    have hded : dedupMovies [] [m₁, m₂] = [m₁] := by
      simp [dedupMovies, ht]
    unfold scrape_cinema_data
    rw [hcm, hded]
    rfl

/-- Two cinema slide items that resolve to distinct posters carrying the
same title (via the image `alt` fallback). -/
def cineItemA : CItem :=
  ⟨some ⟨"https://www.tix.id/movie-detail/1", some ⟨"img1.jpg", "Dune"⟩, none, "", ""⟩, ""⟩

/-- Second slide item with the same resolved title as `cineItemA`. -/
def cineItemB : CItem :=
  ⟨some ⟨"https://www.tix.id/movie-detail/2", some ⟨"img2.jpg", "Dune"⟩, none, "", ""⟩, ""⟩

/-- C9 witness: a slide list with two items sharing an identical resolved
title yields exactly one record, the first occurrence. -/
theorem C9_witness :
    scrape_cinema_data [[cineItemA, cineItemB]] = [⟨"img1.jpg", "Dune"⟩] :=
  C9_cinema_dedup_truncate.2 cineItemA cineItemB ⟨"img1.jpg", "Dune"⟩ ⟨"img2.jpg", "Dune"⟩
    (by decide) (by decide) rfl

/-- C1 counterexample: the claim extends the fresh-cache/no-fetch guarantee
to the flight-arrivals resource, but `get_flight_arrivals` keeps no snapshot
and performs no validity check — its body is a bare `scrape_flight_arrivals()`
call, so the fetch-and-extract pipeline (second component) runs on every
request, including one made immediately after a successful extraction of the
same page, when no time-to-live could possibly have elapsed. -/
theorem C1_counterexample :
    (get_flight_arrivals ⟨[fRowGood]⟩).2 = true
    ∧ (get_flight_arrivals ⟨[fRowGood]⟩).1
        = .success [⟨"SIN", "10:00", "GA123", "Garuda", "3", "Landed"⟩] false := by
  decide

/-- C1 amended: for the four resources that do have a cache — prices,
cinema, events and trends — a get request finding a fresh and readable
snapshot serves it (annotated with the snapshot's timestamp) and never runs
the scraper, and the scraper runs only when the snapshot is stale or
unreadable; the flight-arrivals route, however, has no cache and runs the
fetch-and-extract pipeline on every request. -/
theorem C1_fresh_cache_serves_amended {α : Type} :
    (∀ (e : SembakoEnv α) (f : CacheFile α) (d : α),
       e.file = some f → f.content = some d → e.midnight ≤ f.mtime →
       get_sembako_prices e = ⟨.fromCache d f.mtime, false, e.file⟩)
    ∧ (∀ e : SembakoEnv α, is_cache_valid e.file e.midnight = false →
        (get_sembako_prices e).scraped = true)
    ∧ (∀ e : SembakoEnv α, (get_sembako_prices e).scraped = true →
        is_cache_valid e.file e.midnight = false
          ∨ ∃ f, e.file = some f ∧ f.content = none)
    ∧ (∀ (e : CinemaEnv α) (f : CacheFile α) (d : α),
       e.file = some f → f.content = some d → e.now - f.mtime < 6 * 24 * 3600 →
       get_cinema_data e = ⟨.fromCache d f.mtime, false, e.file⟩)
    ∧ (∀ e : CinemaEnv α, is_cinema_cache_valid e.file e.now = false →
        (get_cinema_data e).scraped = true)
    ∧ (∀ e : CinemaEnv α, (get_cinema_data e).scraped = true →
        is_cinema_cache_valid e.file e.now = false
          ∨ ∃ f, e.file = some f ∧ f.content = none)
    ∧ (∀ (e : EventsEnv α) (f : CacheFile α) (d : α),
       e.file = some f → f.content = some d → e.now - f.mtime < 5 * 24 * 3600 →
       get_events_data e = ⟨.fromCache d f.mtime, false, e.file⟩)
    ∧ (∀ e : EventsEnv α, is_events_cache_valid e.file e.now = false →
        (get_events_data e).scraped = true)
    ∧ (∀ e : EventsEnv α, (get_events_data e).scraped = true →
        is_events_cache_valid e.file e.now = false
          ∨ ∃ f, e.file = some f ∧ f.content = none)
    ∧ (∀ (e : TrendEnv) (f : CacheFile (List TrendItem)),
        e.file = some f → e.now - f.mtime ≤ 86400 → (get_trend e).apiCalled = false)
    ∧ (∀ e : FlightEnv, (get_flight_arrivals e).2 = true) := by
  refine ⟨?_, ?_, ?_, ?_, ?_, ?_, ?_, ?_, ?_, ?_, fun e => rfl⟩
  · intro e f d hf hc hm
    have hv : is_cache_valid (some f) e.midnight = true := by
      simp [is_cache_valid, hm]
    simp [get_sembako_prices, hf, hv, hc]
  · intro e h
    simp only [get_sembako_prices, h, if_false]
    cases hs : e.scrapeResult <;> simp [refreshSembako, hs]
  · intro e h
    cases hf : e.file with
    | none => exact Or.inl rfl
    | some f =>
        by_cases hm : e.midnight ≤ f.mtime
        · cases hc : f.content with
          | some d =>
              exfalso
              have hv : is_cache_valid (some f) e.midnight = true := by
                simp [is_cache_valid, hm]
              simp [get_sembako_prices, hf, hv, hc] at h
          | none => exact Or.inr ⟨f, rfl, hc⟩
        · exact Or.inl (by simp [is_cache_valid, hm])
  · intro e f d hf hc hm
    have hv : is_cinema_cache_valid (some f) e.now = true := by
      simp only [is_cinema_cache_valid, decide_eq_true_eq]
      omega
    simp [get_cinema_data, hf, hv, hc]
  · intro e h
    simp only [get_cinema_data, h, if_false]
    cases hs : e.scrapeResult <;> simp [refreshCinema, hs]
  · intro e h
    cases hf : e.file with
    | none => exact Or.inl rfl
    | some f =>
        by_cases hm : e.now - f.mtime < 6 * 24 * 60 * 60
        · cases hc : f.content with
          | some d =>
              exfalso
              have hv : is_cinema_cache_valid (some f) e.now = true := by
                simp only [is_cinema_cache_valid, decide_eq_true_eq]
                omega
              simp [get_cinema_data, hf, hv, hc] at h
          | none => exact Or.inr ⟨f, rfl, hc⟩
        · refine Or.inl ?_
          simp only [is_cinema_cache_valid, decide_eq_false_iff_not]
          omega
  · intro e f d hf hc hm
    have hv : is_events_cache_valid (some f) e.now = true := by
      simp only [is_events_cache_valid, decide_eq_true_eq]
      omega
    simp [get_events_data, hf, hv, hc]
  · intro e h
    simp only [get_events_data, h, if_false]
    cases hs : e.scrapeResult <;> simp [refreshEvents, hs]
  · intro e h
    cases hf : e.file with
    | none => exact Or.inl rfl
    | some f =>
        by_cases hm : e.now - f.mtime < 5 * 24 * 60 * 60
        · cases hc : f.content with
          | some d =>
              exfalso
              have hv : is_events_cache_valid (some f) e.now = true := by
                simp only [is_events_cache_valid, decide_eq_true_eq]
                omega
              simp [get_events_data, hf, hv, hc] at h
          | none => exact Or.inr ⟨f, rfl, hc⟩
        · refine Or.inl ?_
          simp only [is_events_cache_valid, decide_eq_false_iff_not]
          omega
  · intro e f hf hfresh
    cases hc : f.content <;> simp [get_trend, hf, hfresh, hc]

/-- C1 witness: the amended guarantees evaluated at concrete states — a
fresh readable prices snapshot is served without scraping, a stale cinema
cache forces a scrape, a fresh trends file never calls the external API,
and a flights request always runs the pipeline. -/
theorem C1_witness :
    get_sembako_prices (⟨0, 5000, some ⟨100, some 7⟩, .ok 9, true, none⟩ : SembakoEnv Nat)
      = ⟨.fromCache 7 100, false, some ⟨100, some 7⟩⟩
    ∧ (get_cinema_data
        (⟨10 * 86400, some ⟨0, some 7⟩, .ok 9, true, none⟩ : CinemaEnv Nat)).scraped
        = true
    ∧ (get_trend ⟨90000, some ⟨50000, some []⟩, some "k", []⟩).apiCalled = false
    ∧ (get_flight_arrivals ⟨[]⟩).2 = true := by
  refine ⟨?_, ?_, ?_, ?_⟩
  · exact (@C1_fresh_cache_serves_amended Nat).1
      (⟨0, 5000, some ⟨100, some 7⟩, .ok 9, true, none⟩ : SembakoEnv Nat)
      ⟨100, some 7⟩ 7 rfl rfl (by decide)
  · exact (@C1_fresh_cache_serves_amended Nat).2.2.2.2.1
      (⟨10 * 86400, some ⟨0, some 7⟩, .ok 9, true, none⟩ : CinemaEnv Nat) (by decide)
  · exact (@C1_fresh_cache_serves_amended Nat).2.2.2.2.2.2.2.2.2.1
      ⟨90000, some ⟨50000, some []⟩, some "k", []⟩ ⟨50000, some []⟩ rfl (by decide)
  · exact (@C1_fresh_cache_serves_amended Nat).2.2.2.2.2.2.2.2.2.2 ⟨[]⟩

/-- C3 counterexample: a fresh but unreadable `trending_now.json`.  The
claim requires every failed cache read to be treated as a cache miss and
fall through to a fresh extraction; `get_trend` instead parses the fresh
file with no exception handler, so the request dies with an unhandled
exception and the external API is never called. -/
theorem C3_counterexample :
    get_trend ⟨100000, some ⟨50000, none⟩, some "k", []⟩
      = ⟨.exception, false, some ⟨50000, none⟩⟩ := by
  decide

/-- C3 amended: for the prices, cinema and events gets, a cache read that
fails for any reason behaves exactly like a cache miss — the request falls
through to the refresh path and the scraper runs — and after a successful
extraction the response returned to the caller is the fresh payload
regardless of whether the cache write succeeds or fails and regardless of
what a failed write leaves on disk (the save helpers truncate on open
before dumping, so the post-failure file state is not determined by the
code).  The trends route is the exception: a fresh-but-unreadable stored
file raises instead of falling through (see the counterexample), and the
flights route has no cache at all. -/
theorem C3_read_write_failures_amended {α : Type} :
    (∀ (e : SembakoEnv α) (f : CacheFile α), e.file = some f → f.content = none →
       get_sembako_prices e = refreshSembako e ∧ (refreshSembako e).scraped = true)
    ∧ (∀ (e : SembakoEnv α) (d : α), e.scrapeResult = .ok d →
        (refreshSembako e).resp = .fresh d)
    ∧ (∀ (e : CinemaEnv α) (f : CacheFile α), e.file = some f → f.content = none →
       get_cinema_data e = refreshCinema e ∧ (refreshCinema e).scraped = true)
    ∧ (∀ (e : CinemaEnv α) (d : α), e.scrapeResult = .ok d →
        (refreshCinema e).resp = .fresh d)
    ∧ (∀ (e : EventsEnv α) (f : CacheFile α), e.file = some f → f.content = none →
       get_events_data e = refreshEvents e ∧ (refreshEvents e).scraped = true)
    ∧ (∀ (e : EventsEnv α) (d : α), e.scrapeResult = .ok d →
        (refreshEvents e).resp = .fresh d) := by
  refine ⟨?_, ?_, ?_, ?_, ?_, ?_⟩
  · intro e f hf hc
    refine ⟨?_, ?_⟩
    · by_cases hv : is_cache_valid e.file e.midnight = true
      · simp [get_sembako_prices, hv, hf, hc]
      · have hv' : is_cache_valid e.file e.midnight = false := by simpa using hv
        simp [get_sembako_prices, hv']
    · cases hs : e.scrapeResult <;> simp [refreshSembako, hs]
  · intro e d hs
    simp [refreshSembako, hs]
  · intro e f hf hc
    refine ⟨?_, ?_⟩
    · by_cases hv : is_cinema_cache_valid e.file e.now = true
      · simp [get_cinema_data, hv, hf, hc]
      · have hv' : is_cinema_cache_valid e.file e.now = false := by simpa using hv
        simp [get_cinema_data, hv']
    · cases hs : e.scrapeResult <;> simp [refreshCinema, hs]
  · intro e d hs
    simp [refreshCinema, hs]
  · intro e f hf hc
    refine ⟨?_, ?_⟩
    · by_cases hv : is_events_cache_valid e.file e.now = true
      · simp [get_events_data, hv, hf, hc]
      · have hv' : is_events_cache_valid e.file e.now = false := by simpa using hv
        simp [get_events_data, hv']
    · cases hs : e.scrapeResult <;> simp [refreshEvents, hs]
  · intro e d hs
    simp [refreshEvents, hs]

/-- C3 witness: a valid-but-corrupt prices cache falls through to scraping,
and with a failing cache write — here one that leaves a truncated file
behind — the response returned to the caller is still the fresh payload. -/
theorem C3_witness :
    get_sembako_prices
        (⟨0, 5000, some ⟨100, none⟩, .ok 9, false, some ⟨5000, none⟩⟩ : SembakoEnv Nat)
      = refreshSembako
        (⟨0, 5000, some ⟨100, none⟩, .ok 9, false, some ⟨5000, none⟩⟩ : SembakoEnv Nat)
    ∧ (refreshSembako
        (⟨0, 5000, some ⟨100, none⟩, .ok 9, false, some ⟨5000, none⟩⟩ : SembakoEnv Nat)).resp
        = .fresh 9 := by
  refine ⟨?_, ?_⟩
  · exact (C3_read_write_failures_amended.1
      (⟨0, 5000, some ⟨100, none⟩, .ok 9, false, some ⟨5000, none⟩⟩ : SembakoEnv Nat)
      ⟨100, none⟩ rfl rfl).1
  · exact C3_read_write_failures_amended.2.1
      (⟨0, 5000, some ⟨100, none⟩, .ok 9, false, some ⟨5000, none⟩⟩ : SembakoEnv Nat) 9 rfl

/-- C4 witness: the idempotence equation of the claim theorem evaluated at
the spec's concrete example input. -/
theorem C4_witness :
    clean_price (pyStr (clean_price "Rp 14.500")) = clean_price "Rp 14.500" :=
  C4_clean_price_total_idempotent.2.1 "Rp 14.500"

/-- C5 witness: the code/spec agreement of the claim theorem evaluated at a
concrete mixed input. -/
theorem C5_witness : clean_change " -2.5% " = clean_changeSpec " -2.5% " :=
  C5_clean_change_spec.1 " -2.5% "
